import Mathlib

/-!
# Verification of the NFL dashboard core (tschnetz/NFL)

A shallow embedding of the event-state synchronization and caching engine of
the repository: the odds cache (`fetch_espn_bet_odds` together with
`save_last_fetched_odds` in `dash_app.py`), the schedule index
(`update_week_options`), the score poller (`update_scores`) and the event
projection / sort in `display_game_info`.

Modelling conventions:
* JSON dictionaries become structures; a `dict.get(key, default)` access with a
  possibly missing key becomes an `Option` field read with `Option.getD`.
* Network collaborators (`requests.get` responses) become explicit parameters:
  the function receives the decoded payload it would have obtained, and the
  returned record carries flags recording which collaborators were invoked.
* The `@cache.memoize` decorators are wall-clock-based framework caching
  (spec §5 treats timers/framework glue as external); the bodies are modelled.
* Python dicts used as key → value maps become association lists with
  lookup / overwriting insert.
* Numeric JSON leaves that the code merely copies around (scores, periods) are
  carried as opaque strings.
-/

namespace NFL

/-! ## Odds cache: `fetch_espn_bet_odds`, `save_last_fetched_odds` -/

/-- One element of `odds_data['items']`: the code reads
`item.get('provider', {}).get('id')` and `item.get('details', 'N/A')`. -/
structure OddsItem where
  providerId : Option String
  details : Option String
deriving DecidableEq

/-- `item.get('details', 'N/A')`. -/
def OddsItem.detailsOrNA (item : OddsItem) : String :=
  item.details.getD "N/A"

/-- The in-memory `last_fetched_odds` dict, as an association list. -/
def OddsMap : Type := List (String × String)

/-- Python dict membership / read: `game_id in last_fetched_odds`,
`last_fetched_odds[game_id]`. -/
def cacheLookup : List (String × String) → String → Option String
  | [], _ => none
  | (k, v) :: rest, key => if key = k then some v else cacheLookup rest key

/-- Python dict write `last_fetched_odds[game_id] = value` (overwrites). -/
def cacheInsert : List (String × String) → String → String → List (String × String)
  | [], key, val => [(key, val)]
  | (k, v) :: rest, key, val =>
    if key = k then (k, val) :: rest else (k, v) :: cacheInsert rest key val

/-- Result of one call to `fetch_espn_bet_odds`: the returned value, the
in-memory dict after the call, and flags recording whether the odds network
collaborator (`requests.get(ODDS_URL, ...)`) was invoked and whether
`save_last_fetched_odds` (the synchronous durable flush) ran before return. -/
structure OddsCallResult where
  result : Option String
  cache : List (String × String)
  didFetch : Bool
  didSave : Bool
deriving DecidableEq

/-- `for item in odds_data.get('items', []): if item.get('provider', {}).get('id') == "58"`:
the first item tagged with the ESPN BET provider id. -/
def findProvider58 (items : List OddsItem) : Option OddsItem :=
  items.find? (fun item => item.providerId == some "58")

/-- The fetch-and-store block that `fetch_espn_bet_odds` duplicates verbatim in
its first two branches: fetch the odds payload, scan for the provider-"58"
item; on a match write the dict entry, call `save_last_fetched_odds`, and
return the details; otherwise fall through to `return None`. -/
def oddsFetchStore (cache : List (String × String)) (items : List OddsItem)
    (game_id : String) : OddsCallResult :=
  match findProvider58 items with
  | some item =>
    { result := some item.detailsOrNA
      cache := cacheInsert cache game_id item.detailsOrNA
      didFetch := true
      didSave := true }
  | none =>
    { result := none, cache := cache, didFetch := true, didSave := false }

/-- `fetch_espn_bet_odds(game_id, game_status)` (dash_app.py:94-125), with the
in-memory `last_fetched_odds` dict and the would-be odds payload (`items`)
passed explicitly. -/
def fetch_espn_bet_odds (cache : List (String × String)) (items : List OddsItem)
    (game_id game_status : String) : OddsCallResult :=
  if game_status = "Scheduled" then
    oddsFetchStore cache items game_id
  else if (cacheLookup cache game_id).isNone then
    oddsFetchStore cache items game_id
  else
    { result := cacheLookup cache game_id, cache := cache
      didFetch := false, didSave := false }

/-! ## Schedule index: `update_week_options` (dash_app.py:179-216)

Timestamps are modelled as integers (UTC instants); `datetime` comparison is
integer comparison. -/

/-- One entry of a calendar period: `{label, startDate, endDate}`. -/
structure WeekEntry where
  label : String
  startDate : Int
  endDate : Int
deriving DecidableEq

/-- One element of `nfl_league['calendar']`; the code guards on
`'entries' in period`, so the key may be absent. -/
structure CalPeriod where
  entries : Option (List WeekEntry)
deriving DecidableEq

/-- One element of `data['leagues']`; only `calendar` is read. -/
structure League where
  calendar : List CalPeriod
deriving DecidableEq

/-- One element of the `week_options` list: the display label and the
`week_counter` value. The label's date-range suffix
(`start.strftime('%m/%d')` etc.) is presentation formatting and is elided;
the entry's own `label` is kept. -/
structure WeekOption where
  label : String
  value : Nat
deriving DecidableEq

/-- The nested loop `for period in calendar_data: if 'entries' in period:
for week in period['entries']`, flattened: an absent `entries` key and an
empty entry list both contribute nothing, and the single `week_counter`
runs uniformly across periods. -/
def calendarWeeks (calendar : List CalPeriod) : List WeekEntry :=
  calendar.foldr (fun p acc => p.entries.getD [] ++ acc) []

/-- `start_date <= current_date <= end_date`. -/
def weekContains (w : WeekEntry) (now : Int) : Prop :=
  w.startDate ≤ now ∧ now ≤ w.endDate

instance (w : WeekEntry) (now : Int) : Decidable (weekContains w now) :=
  inferInstanceAs (Decidable (_ ∧ _))

/-- The loop body of `update_week_options` over the flattened entries:
accumulates `week_options` and keeps overwriting `selected_value` (there is
no `break`, so a later containing entry overwrites an earlier one). -/
def scanWeeks (now : Int) : List WeekEntry → Nat → Option Nat →
    List WeekOption × Option Nat
  | [], _, sel => ([], sel)
  | w :: ws, counter, sel =>
    let sel2 := if weekContains w now then some counter else sel
    let rest := scanWeeks now ws (counter + 1) sel2
    (⟨w.label, counter⟩ :: rest.1, rest.2)

/-- `update_week_options` (dash_app.py:179-216), the part after the fetch:
returns `(week_options, week_options_fetched, selected_value)`.
The fourth returned component (the raw events payload) is pass-through data
and is elided. -/
def update_week_options (leagues : List League) (now : Int) :
    List WeekOption × Bool × Option Nat :=
  match leagues with
  | [] => ([], false, none)
  | nfl_league :: _ =>
    let scanned := scanWeeks now (calendarWeeks nfl_league.calendar) 0 none
    let sel :=
      match scanned.2, scanned.1 with
      | none, o :: _ => some o.value
      | s, _ => s
    (scanned.1, true, sel)

/-- Modelled from the spec for C3 (`currentWeekIndex` policy): the index of
the FIRST week entry whose `[start, end]` interval contains `now`. -/
def spec_firstContainingIndex (weeks : List WeekEntry) (now : Int) : Option Nat :=
  weeks.findIdx? (fun w => decide (weekContains w now))

/-- The index of the LAST week entry (in traversal order) whose interval
contains `now` — what the loop without `break` actually computes. -/
def lastContainingIndex (now : Int) : List WeekEntry → Option Nat
  | [] => none
  | w :: ws =>
    match lastContainingIndex now ws with
    | some i => some (i + 1)
    | none => if weekContains w now then some 0 else none

/-! ## Score poller: `update_scores` (dash_app.py:419-495) -/

/-- `competitions[i]['competitors'][j]['team']`. -/
structure Team where
  displayName : String
deriving DecidableEq

/-- A competitor: `team` plus `competitor.get('score', 'N/A')`. -/
structure Competitor where
  team : Team
  score : Option String
deriving DecidableEq

/-- One element of `competitions`. The code reads exactly
`competitors[0]` (home) and `competitors[1]` (away); feeds with fewer than
two competitors would raise in Python and are outside the modelled domain. -/
structure Competition where
  home : Competitor
  away : Competitor
deriving DecidableEq

/-- `status.get('situation', {}).get('possession', {})`. -/
structure PossessionInfo where
  displayName : Option String
deriving DecidableEq

/-- `status.get('situation', {})`. -/
structure SituationInfo where
  downDistanceText : Option String
  possession : Option PossessionInfo
deriving DecidableEq

/-- `status.get('type', {})`. -/
structure StatusType where
  description : Option String
deriving DecidableEq

/-- `game_info.get('status', {})`. -/
structure StatusInfo where
  period : Option String
  displayClock : Option String
  type : Option StatusType
  situation : Option SituationInfo
deriving DecidableEq

/-- `game_data.get('event', {})`. -/
structure EventDetail where
  competitions : List Competition
  status : Option StatusInfo
deriving DecidableEq

/-- A `fetch_game_scoreboard` payload; `none` at the call site models the
falsy `{}` returned on a failed fetch. -/
structure GameData where
  event : Option EventDetail
deriving DecidableEq

/-- One element of `updated_scores_data` / `scores_data`. -/
structure ScoreRecord where
  game_id : String
  homeTeamScore : String
  awayTeamScore : String
  quarter : String
  timeRemaining : String
  downDistance : String
  possession : String
deriving DecidableEq

/-- An element of `nfl_events_data['events']`, restricted to the fields the
poller, the projection and the sort read. `statusDescription` is
`event['status']['type']['description']`; `statusPeriod` and
`statusDisplayClock` are `event.get('status', {}).get('period'/'displayClock',
None)`; scores are `competitors[i].get('score', 'N/A')`. -/
structure EventInfo where
  id : String
  statusDescription : String
  statusPeriod : Option String
  statusDisplayClock : Option String
  homeTeamName : String
  awayTeamName : String
  homeScore : Option String
  awayScore : Option String
deriving DecidableEq

/-- Python's `str.lower()`, character by character (the status strings the
code compares are ASCII). Implemented over the underlying character list so
that it evaluates inside the kernel. -/
def pyLower (s : String) : String :=
  ⟨s.data.map Char.toLower⟩

/-- The body of the `for game_id in game_ids` loop (dash_app.py:444-488):
`none` means the iteration hit a `continue` (failed fetch or empty
`competitions`); otherwise the assembled `ScoreRecord` paired with whether
the freshly fetched status description is "in progress" (lower-cased). -/
def processGame (fetch : String → Option GameData) (game_id : String) :
    Option (ScoreRecord × Bool) :=
  match fetch game_id with
  | none => none
  | some game_data =>
    match game_data.event with
    | none => none
    | some game_info =>
      match game_info.competitions with
      | [] => none
      | comp :: _ =>
        let status_info := game_info.status
        let situation := status_info.bind (·.situation)
        let game_status :=
          ((status_info.bind (·.type)).bind (·.description)).getD "N/A"
        some
          ({ game_id := game_id
             homeTeamScore := comp.home.score.getD "N/A"
             awayTeamScore := comp.away.score.getD "N/A"
             quarter := (status_info.bind (·.period)).getD "N/A"
             timeRemaining := (status_info.bind (·.displayClock)).getD "N/A"
             downDistance := (situation.bind (·.downDistanceText)).getD "N/A"
             possession :=
               ((situation.bind (·.possession)).bind (·.displayName)).getD "N/A" },
           pyLower game_status = "in progress")

/-- The whole fetch loop: assembles `updated_scores_data` in `game_ids` order
(skipping `continue`d iterations) and the OR-accumulated
`games_in_progress` flag. -/
def processGames (fetch : String → Option GameData) :
    List String → List ScoreRecord × Bool
  | [] => ([], false)
  | game_id :: rest =>
    let tail := processGames fetch rest
    match processGame fetch game_id with
    | none => tail
    | some (rec, inProg) => (rec :: tail.1, inProg || tail.2)

/-- The result slot of `update_scores`: `dash.no_update` (the unchanged
sentinel) or a new snapshot. -/
inductive PollResult where
  | noUpdate
  | snapshot (records : List ScoreRecord)
deriving DecidableEq

/-- Outcome of one `update_scores` call: the first two outputs, plus the list
of game ids for which `fetch_game_scoreboard` was invoked. -/
structure PollOutcome where
  result : PollResult
  anyInProgress : Bool
  detailFetches : List String
deriving DecidableEq

/-- `event['status']['type']['description'].lower() == "in progress"` filter
producing `game_ids` (dash_app.py:428-431). -/
def inProgressIds (events : List EventInfo) : List String :=
  (events.filter (fun e => pyLower e.statusDescription = "in progress")).map (·.id)

/-- `update_scores` (dash_app.py:419-495), with `fetch_game_scoreboard`
passed as a collaborator and `n_intervals` (unused by the logic) dropped. -/
def update_scores (fetch : String → Option GameData)
    (prev_scores_data : List ScoreRecord) (events : List EventInfo) :
    PollOutcome :=
  if events = [] then
    { result := .noUpdate, anyInProgress := false, detailFetches := [] }
  else
    let game_ids := inProgressIds events
    if game_ids = [] then
      { result := .noUpdate, anyInProgress := false, detailFetches := [] }
    else
      let assembled := processGames fetch game_ids
      if prev_scores_data = assembled.1 then
        { result := .noUpdate, anyInProgress := assembled.2
          detailFetches := game_ids }
      else
        { result := .snapshot assembled.1, anyInProgress := assembled.2
          detailFetches := game_ids }

/-! ## Event projection and sort: `display_game_info` (dash_app.py:263-408),
`extract_game_info` (dash_app.py:129-169) -/

/-- The claim-relevant slice of the dict built by `extract_game_info`:
team names, scores (`.get('score', 'N/A')`), status description, and the
event's own quarter / clock (`event.get('status', {}).get('period'/'displayClock',
None)`). Presentation-only fields (logos, colors, venue, network, start time)
and the odds text (covered by the odds-cache model) are elided. -/
structure ProjectedInfo where
  homeTeam : String
  awayTeam : String
  homeTeamScore : String
  awayTeamScore : String
  quarter : Option String
  timeRemaining : Option String
  gameStatus : String
deriving DecidableEq

/-- `extract_game_info(event)` restricted to the fields above. -/
def extract_game_info (e : EventInfo) : ProjectedInfo :=
  { homeTeam := e.homeTeamName
    awayTeam := e.awayTeamName
    homeTeamScore := e.homeScore.getD "N/A"
    awayTeamScore := e.awayScore.getD "N/A"
    quarter := e.statusPeriod
    timeRemaining := e.statusDisplayClock
    gameStatus := e.statusDescription }

/-- The projected record after the score-override block, together with the
loop-local `possession_team` and `down_distance` (both unset — `none` —
when no snapshot entry matches). -/
structure MergedDisplay where
  info : ProjectedInfo
  possessionTeam : Option String
  downDistance : Option String
deriving DecidableEq

/-- The score-override block of `display_game_info` (dash_app.py:327-335):
scan `scores_data` for the first entry whose `game_id` matches and take its
score / down-distance / possession fields, with `break`. -/
def mergeScores (game_info : ProjectedInfo) (game_id : String)
    (scores_data : List ScoreRecord) : MergedDisplay :=
  match scores_data.find? (fun s => s.game_id == game_id) with
  | some s =>
    { info := { game_info with
        homeTeamScore := s.homeTeamScore
        awayTeamScore := s.awayTeamScore }
      possessionTeam := some s.possession
      downDistance := some s.downDistance }
  | none =>
    { info := game_info, possessionTeam := none, downDistance := none }

/-- `project(event, scoreSnapshot)`: `extract_game_info` followed by the
score-override block for that event's id. -/
def projectEvent (e : EventInfo) (scores_data : List ScoreRecord) :
    MergedDisplay :=
  mergeScores (extract_game_info e) e.id scores_data

/-- The sort key of dash_app.py:314-317 — the Python tuple
`(desc == 'Final', desc == 'Scheduled')` compared lexicographically with
`False < True` — encoded order-isomorphically as the natural number
`2*(desc == 'Final') + (desc == 'Scheduled')`:
`(False,False) ↦ 0 < (False,True) ↦ 1 < (True,False) ↦ 2`
(and `(True,True)` is unreachable: a description cannot equal both). -/
def sortKey (e : EventInfo) : Nat :=
  2 * (if e.statusDescription = "Final" then 1 else 0) +
    (if e.statusDescription = "Scheduled" then 1 else 0)

/-- `sorted(selected_week_games, key=...)`: Python `sorted` is a stable sort
by key; modelled with the (stable) `List.mergeSort` under the key's
non-strict order. -/
def sortGames (games : List EventInfo) : List EventInfo :=
  games.mergeSort (fun a b => sortKey a ≤ sortKey b)

/-- `any(game['status']['type']['description'] == 'In Progress' for game in
selected_week_games)` (dash_app.py:311). -/
def gamesInProgress (games : List EventInfo) : Bool :=
  games.any (fun g => g.statusDescription == "In Progress")

/-! ## Lemmas about the odds cache -/

/-- Overwriting insert followed by lookup at the same key yields the value. -/
theorem cacheLookup_cacheInsert (c : List (String × String)) (k v : String) :
    cacheLookup (cacheInsert c k v) k = some v := by
  induction c with
  | nil => simp [cacheInsert, cacheLookup]
  | cons hd tl ih =>
    obtain ⟨k2, v2⟩ := hd
    by_cases h : k = k2 <;> simp [cacheInsert, cacheLookup, h, ih]

/-- Claim C1: for every event id that already has an entry in the odds cache
and whose game status is In Progress or Final, `fetch_espn_bet_odds` returns
the cached value for that id, performs no network fetch (and no write and no
durable flush). -/
theorem C1_odds_freeze (cache : List (String × String)) (items : List OddsItem)
    (game_id game_status v : String)
    (hstatus : game_status = "In Progress" ∨ game_status = "Final")
    (hcached : cacheLookup cache game_id = some v) :
    fetch_espn_bet_odds cache items game_id game_status =
      { result := some v, cache := cache, didFetch := false, didSave := false } := by
  have hne : game_status ≠ "Scheduled" := by
    rcases hstatus with h | h <;> simp [h]
  simp [fetch_espn_bet_odds, hne, hcached]

/-- Witness for C1 at a concrete cache, event id and status. -/
theorem C1_odds_freeze_witness :
    fetch_espn_bet_odds [("401", "-3.5")] [] "401" "In Progress" =
      { result := some "-3.5", cache := [("401", "-3.5")]
        didFetch := false, didSave := false } :=
  C1_odds_freeze [("401", "-3.5")] [] "401" "In Progress" "-3.5"
    (Or.inl rfl) (by decide)

/-- Claim C2: for every call with game status Scheduled, a live fetch is
attempted; when the payload holds a record tagged with provider "58", the
cache entry for the event id is overwritten with the fetched value and the
durable flush runs before the call returns, and the fetched value is
returned; when no matching provider record exists, the result is `none`. -/
theorem C2_scheduled_overwrite (cache : List (String × String))
    (items : List OddsItem) (game_id : String) :
    (fetch_espn_bet_odds cache items game_id "Scheduled").didFetch = true ∧
    (∀ item, findProvider58 items = some item →
      fetch_espn_bet_odds cache items game_id "Scheduled" =
        { result := some item.detailsOrNA
          cache := cacheInsert cache game_id item.detailsOrNA
          didFetch := true, didSave := true } ∧
      cacheLookup (fetch_espn_bet_odds cache items game_id "Scheduled").cache
        game_id = some item.detailsOrNA) ∧
    (findProvider58 items = none →
      (fetch_espn_bet_odds cache items game_id "Scheduled").result = none) := by
  have hbranch : fetch_espn_bet_odds cache items game_id "Scheduled" =
      oddsFetchStore cache items game_id := by
    simp [fetch_espn_bet_odds]
  refine ⟨?_, ?_, ?_⟩
  · rw [hbranch]
    cases h : findProvider58 items <;> simp [oddsFetchStore, h]
  · intro item h
    rw [hbranch]
    exact ⟨by simp [oddsFetchStore, h],
      by simp [oddsFetchStore, h, cacheLookup_cacheInsert]⟩
  · intro h
    rw [hbranch]
    simp [oddsFetchStore, h]

/-- Witness for C2: a Scheduled call whose payload carries a provider-"58"
record overwrites and flushes; one with no matching record returns `none`. -/
theorem C2_scheduled_overwrite_witness :
    fetch_espn_bet_odds [("401", "old")] [⟨some "58", some "-3.5"⟩] "401"
        "Scheduled" =
      { result := some "-3.5", cache := [("401", "-3.5")]
        didFetch := true, didSave := true } ∧
    (fetch_espn_bet_odds [] [⟨some "7", some "+2"⟩] "402" "Scheduled").result =
      none := by
  constructor
  · have h := ((C2_scheduled_overwrite [("401", "old")]
      [⟨some "58", some "-3.5"⟩] "401").2.1 ⟨some "58", some "-3.5"⟩
      (by decide)).1
    rw [h]
    decide
  · exact (C2_scheduled_overwrite [] [⟨some "7", some "+2"⟩] "402").2.2
      (by decide)

/-- Claim C10: whenever `fetch_espn_bet_odds` returns `none`, the in-memory
odds mapping is left unchanged and no durable flush happens. -/
theorem C10_failed_lookup_atomic (cache : List (String × String))
    (items : List OddsItem) (game_id game_status : String)
    (h : (fetch_espn_bet_odds cache items game_id game_status).result = none) :
    (fetch_espn_bet_odds cache items game_id game_status).cache = cache ∧
    (fetch_espn_bet_odds cache items game_id game_status).didSave = false := by
  by_cases hs : game_status = "Scheduled"
  · have hbranch : fetch_espn_bet_odds cache items game_id game_status =
        oddsFetchStore cache items game_id := by
      simp [fetch_espn_bet_odds, hs]
    rw [hbranch] at h ⊢
    cases hfind : findProvider58 items <;> simp [oddsFetchStore, hfind] at h ⊢
  · by_cases hmiss : (cacheLookup cache game_id).isNone
    · have hbranch : fetch_espn_bet_odds cache items game_id game_status =
          oddsFetchStore cache items game_id := by
        simp [fetch_espn_bet_odds, hs, hmiss]
      rw [hbranch] at h ⊢
      cases hfind : findProvider58 items <;>
        simp [oddsFetchStore, hfind] at h ⊢
    · have hbranch : fetch_espn_bet_odds cache items game_id game_status =
          { result := cacheLookup cache game_id, cache := cache
            didFetch := false, didSave := false } := by
        simp [fetch_espn_bet_odds, hs, hmiss]
      rw [hbranch] at h
      simp only at h
      exact absurd (Option.isNone_iff_eq_none.mpr h) hmiss

/-- Witness for C10: a Scheduled call with no matching provider record
returns `none` and leaves the cache untouched. -/
theorem C10_failed_lookup_atomic_witness :
    (fetch_espn_bet_odds [("400", "-1")] [⟨some "7", some "+2"⟩] "401"
        "Scheduled").cache = [("400", "-1")] ∧
    (fetch_espn_bet_odds [("400", "-1")] [⟨some "7", some "+2"⟩] "401"
        "Scheduled").didSave = false :=
  C10_failed_lookup_atomic [("400", "-1")] [⟨some "7", some "+2"⟩] "401"
    "Scheduled" (by decide)

/-! ## Lemmas about the schedule index -/

/-- The `selected_value` computed by the loop: since there is no `break`,
it is the last containing entry's index (shifted by the starting counter),
or the incoming value when no entry contains `now`. -/
theorem scanWeeks_sel (now : Int) (ws : List WeekEntry) :
    ∀ (c : Nat) (sel : Option Nat),
    (scanWeeks now ws c sel).2 =
      match lastContainingIndex now ws with
      | some i => some (c + i)
      | none => sel := by
  induction ws with
  | nil => intro c sel; simp [scanWeeks, lastContainingIndex]
  | cons w ws ih =>
    intro c sel
    simp only [scanWeeks, lastContainingIndex]
    rw [ih]
    cases hlast : lastContainingIndex now ws with
    | some i =>
      simp only
      exact congrArg some (by omega)
    | none =>
      by_cases hw : weekContains w now <;> simp [hw]

/-- If no entry contains `now`, there is no last containing index. -/
theorem lastContainingIndex_eq_none (now : Int) (ws : List WeekEntry)
    (h : ∀ w ∈ ws, ¬ weekContains w now) :
    lastContainingIndex now ws = none := by
  induction ws with
  | nil => rfl
  | cons w ws ih =>
    simp only [lastContainingIndex]
    rw [ih (fun x hx => h x (List.mem_cons_of_mem _ hx))]
    simp [h w (List.mem_cons_self _ _)]

/-- Counterexample to claim C3: with two week entries whose intervals both
contain `now`, `update_week_options` selects index 1 (the last containing
entry), while the first containing entry has index 0. -/
theorem C3_counterexample :
    (update_week_options
        [⟨[⟨some [⟨"Week 1", 0, 10⟩, ⟨"Week 2", 0, 10⟩]⟩]⟩] 5).2.2 = some 1 ∧
    spec_firstContainingIndex [⟨"Week 1", 0, 10⟩, ⟨"Week 2", 0, 10⟩] 5 =
      some 0 ∧
    (some 1 : Option Nat) ≠ some 0 := by
  decide

/-- Claim C3 (amended): `update_week_options` selects the index of the LAST
week entry (in flattened traversal order) whose closed interval contains
`now`; when two or more entries' intervals contain `now`, the latest one in
traversal order wins. -/
theorem C3_last_match_wins (nfl : League) (rest : List League) (now : Int)
    (i : Nat)
    (hlast : lastContainingIndex now (calendarWeeks nfl.calendar) = some i) :
    (update_week_options (nfl :: rest) now).2.2 = some i := by
  have h := scanWeeks_sel now (calendarWeeks nfl.calendar) 0 none
  rw [hlast] at h
  simp only [Nat.zero_add] at h
  simp only [update_week_options, h]

/-- Witness for the amended C3 at a concrete overlapping calendar. -/
theorem C3_last_match_wins_witness :
    (update_week_options
        [⟨[⟨some [⟨"Week 1", 0, 10⟩, ⟨"Week 2", 0, 10⟩]⟩]⟩] 5).2.2 = some 1 :=
  C3_last_match_wins ⟨[⟨some [⟨"Week 1", 0, 10⟩, ⟨"Week 2", 0, 10⟩]⟩]⟩ [] 5 1
    (by decide)

/-- Claim C9: with no leagues the week list is empty and the selected index
is none; with a calendar holding no entries likewise; and when entries exist
but none contains `now`, the selected index falls back to 0. -/
theorem C9_fallback_and_empty (now : Int) (nfl : League)
    (rest : List League) :
    update_week_options [] now = ([], false, none) ∧
    (calendarWeeks nfl.calendar = [] →
      update_week_options (nfl :: rest) now = ([], true, none)) ∧
    ((∀ w ∈ calendarWeeks nfl.calendar, ¬ weekContains w now) →
      calendarWeeks nfl.calendar ≠ [] →
      (update_week_options (nfl :: rest) now).2.2 = some 0) := by
  refine ⟨rfl, ?_, ?_⟩
  · intro hcal
    simp [update_week_options, hcal, scanWeeks]
  · intro hnone hne
    have hlast := lastContainingIndex_eq_none now _ hnone
    have h := scanWeeks_sel now (calendarWeeks nfl.calendar) 0 none
    rw [hlast] at h
    simp only at h
    cases hw : calendarWeeks nfl.calendar with
    | nil => exact absurd hw hne
    | cons w ws =>
      rw [hw] at h
      simp only [scanWeeks] at h
      simp only [update_week_options, hw, scanWeeks, h]

/-- Witness for C9 at a concrete empty and a concrete non-containing
calendar. -/
theorem C9_fallback_and_empty_witness :
    update_week_options [] 5 = ([], false, none) ∧
    update_week_options [⟨[⟨none⟩]⟩] 5 = ([], true, none) ∧
    (update_week_options [⟨[⟨some [⟨"Week 1", 20, 30⟩]⟩]⟩] 5).2.2 = some 0 := by
  refine ⟨(C9_fallback_and_empty 5 ⟨[]⟩ []).1, ?_, ?_⟩
  · exact (C9_fallback_and_empty 5 ⟨[⟨none⟩]⟩ []).2.1 (by decide)
  · exact (C9_fallback_and_empty 5 ⟨[⟨some [⟨"Week 1", 20, 30⟩]⟩]⟩ []).2.2
      (by decide) (by decide)

/-! ## Lemmas about the score poller -/

/-- The fetch loop assembles exactly the records of the iterations that did
not `continue`, in id order, and ORs the in-progress flags of those
iterations. -/
theorem processGames_eq (fetch : String → Option GameData) (ids : List String) :
    processGames fetch ids =
      (ids.filterMap (fun gid => (processGame fetch gid).map Prod.fst),
       ids.any (fun gid => ((processGame fetch gid).map Prod.snd).getD false)) := by
  induction ids with
  | nil => rfl
  | cons gid rest ih =>
    simp only [processGames, ih]
    cases h : processGame fetch gid with
    | none => simp [h]
    | some p => simp [h]

/-- The first two branches of `update_scores` merged: with no events or no
in-progress events, the unchanged sentinel, a false flag and no fetches. -/
theorem update_scores_result_eq (fetch : String → Option GameData)
    (prev : List ScoreRecord) (events : List EventInfo)
    (hev : events ≠ []) (hids : inProgressIds events ≠ []) :
    (update_scores fetch prev events).result =
      (if prev = (processGames fetch (inProgressIds events)).1
       then PollResult.noUpdate
       else PollResult.snapshot (processGames fetch (inProgressIds events)).1) := by
  simp only [update_scores, if_neg hev, if_neg hids]
  split <;> rfl

/-- Claim C6: when no event has an in-progress status, `update_scores`
returns the unchanged sentinel with a false flag and performs no per-event
detail fetches. -/
theorem C6_no_in_progress (fetch : String → Option GameData)
    (prev : List ScoreRecord) (events : List EventInfo)
    (h : ∀ e ∈ events, pyLower e.statusDescription ≠ "in progress") :
    update_scores fetch prev events =
      { result := .noUpdate, anyInProgress := false, detailFetches := [] } := by
  have hids : inProgressIds events = [] := by
    unfold inProgressIds
    have : events.filter
        (fun e => pyLower e.statusDescription = "in progress") = [] := by
      rw [List.filter_eq_nil_iff]
      intro a ha
      simpa using h a ha
    rw [this]
    rfl
  by_cases hev : events = []
  · simp [update_scores, hev]
  · simp [update_scores, hev, hids]

/-- Witness for C6: two events, Final and Scheduled — sentinel, false flag,
no fetches. -/
theorem C6_no_in_progress_witness :
    update_scores (fun _ => none) []
      [⟨"1", "Final", none, none, "H1", "A1", none, none⟩,
       ⟨"2", "Scheduled", none, none, "H2", "A2", none, none⟩] =
      { result := .noUpdate, anyInProgress := false, detailFetches := [] } :=
  C6_no_in_progress (fun _ => none) []
    [⟨"1", "Final", none, none, "H1", "A1", none, none⟩,
     ⟨"2", "Scheduled", none, none, "H2", "A2", none, none⟩] (by decide)

/-- Claim C5: when some in-progress events' detail fetches fail, the failed
events are skipped without aborting the cycle, the returned snapshot holds
exactly the records of the successfully processed events (in id order), and
the in-progress flag is computed only from the fetched statuses. -/
theorem C5_partial_failure (fetch : String → Option GameData)
    (prev : List ScoreRecord) (events : List EventInfo)
    (hids : inProgressIds events ≠ [])
    (_hfail : ∃ gid ∈ inProgressIds events, fetch gid = none)
    (hchanged : prev ≠ (inProgressIds events).filterMap
      (fun gid => (processGame fetch gid).map Prod.fst)) :
    update_scores fetch prev events =
      { result := .snapshot ((inProgressIds events).filterMap
          (fun gid => (processGame fetch gid).map Prod.fst))
        anyInProgress := (inProgressIds events).any
          (fun gid => ((processGame fetch gid).map Prod.snd).getD false)
        detailFetches := inProgressIds events } := by
  have hev : events ≠ [] := by
    intro he
    apply hids
    rw [he]
    rfl
  have hassembled := processGames_eq fetch (inProgressIds events)
  simp only [update_scores, if_neg hev, if_neg hids, hassembled]
  rw [if_neg hchanged]

/-- A well-formed scoreboard payload for concrete instances: home/away names
and scores, period, clock, status description, down-distance text and
possessing team. -/
def mkGameData (hn hs an as per clk desc dd poss : String) : GameData :=
  ⟨some ⟨[⟨⟨⟨hn⟩, some hs⟩, ⟨⟨an⟩, some as⟩⟩],
    some ⟨some per, some clk, some ⟨some desc⟩, some ⟨some dd, some ⟨some poss⟩⟩⟩⟩⟩

/-- A schedule event with a status description, for concrete instances. -/
def mkEvent (id desc hn an : String) : EventInfo :=
  ⟨id, desc, none, none, hn, an, none, none⟩

/-- Witness for C5: three in-progress events, the fetch for id "2" fails;
the snapshot holds exactly the records of "1" and "3", the flag is computed
from the two fetched statuses. -/
theorem C5_partial_failure_witness :
    update_scores
      (fun gid =>
        if gid = "1" then
          some (mkGameData "H1" "7" "A1" "3" "2" "5:00" "In Progress" "1st and 10" "H1")
        else if gid = "3" then
          some (mkGameData "H3" "14" "A3" "10" "4" "0:30" "In Progress" "3rd and 1" "A3")
        else none)
      []
      [mkEvent "1" "In Progress" "H1" "A1",
       mkEvent "2" "In Progress" "H2" "A2",
       mkEvent "3" "In Progress" "H3" "A3"] =
      { result := .snapshot
          [⟨"1", "7", "3", "2", "5:00", "1st and 10", "H1"⟩,
           ⟨"3", "14", "10", "4", "0:30", "3rd and 1", "A3"⟩]
        anyInProgress := true
        detailFetches := ["1", "2", "3"] } := by
  refine Eq.trans
    (C5_partial_failure _ _ _ ?_ ⟨"2", ?_, ?_⟩ ?_) ?_ <;> decide

/-- Counterexample to claim C4: the snapshot comparison is Python list
equality, which is order-sensitive. With a previous snapshot holding the same
per-event records in the opposite order, `update_scores` returns a new
snapshot rather than the unchanged sentinel, although the two snapshots are
equal as unordered collections (multisets). -/
theorem C4_counterexample :
    (update_scores
        (fun gid =>
          if gid = "1" then
            some (mkGameData "H1" "7" "A1" "3" "2" "5:00" "In Progress" "1st and 10" "H1")
          else if gid = "2" then
            some (mkGameData "H2" "14" "A2" "10" "4" "0:30" "In Progress" "3rd and 1" "A2")
          else none)
        [⟨"2", "14", "10", "4", "0:30", "3rd and 1", "A2"⟩,
         ⟨"1", "7", "3", "2", "5:00", "1st and 10", "H1"⟩]
        [mkEvent "1" "In Progress" "H1" "A1",
         mkEvent "2" "In Progress" "H2" "A2"]).result =
      .snapshot
        [⟨"1", "7", "3", "2", "5:00", "1st and 10", "H1"⟩,
         ⟨"2", "14", "10", "4", "0:30", "3rd and 1", "A2"⟩] ∧
    Multiset.ofList
        [(⟨"2", "14", "10", "4", "0:30", "3rd and 1", "A2"⟩ : ScoreRecord),
         ⟨"1", "7", "3", "2", "5:00", "1st and 10", "H1"⟩] =
      Multiset.ofList
        [⟨"1", "7", "3", "2", "5:00", "1st and 10", "H1"⟩,
         ⟨"2", "14", "10", "4", "0:30", "3rd and 1", "A2"⟩] ∧
    [(⟨"2", "14", "10", "4", "0:30", "3rd and 1", "A2"⟩ : ScoreRecord),
       ⟨"1", "7", "3", "2", "5:00", "1st and 10", "H1"⟩] ≠
      [⟨"1", "7", "3", "2", "5:00", "1st and 10", "H1"⟩,
       ⟨"2", "14", "10", "4", "0:30", "3rd and 1", "A2"⟩] := by
  refine ⟨by decide, Quot.sound ?_, by decide⟩
  exact List.Perm.swap _ _ _

/-- Claim C4 (amended): the snapshot comparison is ordered structural list
equality. When the assembled record list equals the previous one as an
ordered list, `update_scores` returns the unchanged sentinel; when it differs
in any way (field value or order), the new snapshot is returned; and a second
poll with unchanged underlying data returns the unchanged sentinel. -/
theorem C4_ordered_compare_idempotent (fetch : String → Option GameData)
    (prev : List ScoreRecord) (events : List EventInfo)
    (recs : List ScoreRecord)
    (hids : inProgressIds events ≠ [])
    (hrecs : recs = (processGames fetch (inProgressIds events)).1) :
    (prev = recs → (update_scores fetch prev events).result = .noUpdate) ∧
    (prev ≠ recs →
      (update_scores fetch prev events).result = .snapshot recs) ∧
    (update_scores fetch
        (match (update_scores fetch prev events).result with
         | .noUpdate => prev
         | .snapshot r => r) events).result = .noUpdate := by
  have hev : events ≠ [] := by
    intro he
    apply hids
    rw [he]
    rfl
  have hres := update_scores_result_eq fetch prev events hev hids
  rw [← hrecs] at hres
  refine ⟨?_, ?_, ?_⟩
  · intro heq
    rw [hres, if_pos heq]
  · intro hne
    rw [hres, if_neg hne]
  · have hstored : (match (update_scores fetch prev events).result with
        | PollResult.noUpdate => prev
        | PollResult.snapshot r => r) = recs := by
      by_cases heq : prev = recs
      · rw [hres, if_pos heq]
        exact heq
      · rw [hres, if_neg heq]
    rw [hstored]
    have hres2 := update_scores_result_eq fetch recs events hev hids
    rw [← hrecs] at hres2
    rw [hres2, if_pos rfl]

/-- Witness for the amended C4: one in-progress event, empty previous
snapshot — the new snapshot is returned; repolling the same data after
storing it yields the sentinel. -/
theorem C4_ordered_compare_idempotent_witness :
    (update_scores
        (fun gid =>
          if gid = "1" then
            some (mkGameData "H1" "7" "A1" "3" "2" "5:00" "In Progress" "1st and 10" "H1")
          else none)
        []
        [mkEvent "1" "In Progress" "H1" "A1"]).result =
      .snapshot [⟨"1", "7", "3", "2", "5:00", "1st and 10", "H1"⟩] ∧
    (update_scores
        (fun gid =>
          if gid = "1" then
            some (mkGameData "H1" "7" "A1" "3" "2" "5:00" "In Progress" "1st and 10" "H1")
          else none)
        [⟨"1", "7", "3", "2", "5:00", "1st and 10", "H1"⟩]
        [mkEvent "1" "In Progress" "H1" "A1"]).result =
      .noUpdate := by
  constructor
  · refine Eq.trans ((C4_ordered_compare_idempotent _ _ _
      [⟨"1", "7", "3", "2", "5:00", "1st and 10", "H1"⟩] ?_ ?_).2.1 ?_)
      ?_ <;> decide
  · exact (C4_ordered_compare_idempotent _
      [⟨"1", "7", "3", "2", "5:00", "1st and 10", "H1"⟩]
      [mkEvent "1" "In Progress" "H1" "A1"]
      [⟨"1", "7", "3", "2", "5:00", "1st and 10", "H1"⟩]
      (by decide) (by decide)).1 rfl

/-- Counterexample to claim C7: the override block copies only the score,
possession and down-distance fields from the snapshot entry. With a snapshot
entry carrying quarter "3" and clock "2:00", the projected record keeps the
event's own quarter "1" and clock "10:00". -/
theorem C7_counterexample :
    (projectEvent
        ⟨"1", "In Progress", some "1", some "10:00", "H1", "A1", some "0",
          some "0"⟩
        [⟨"1", "7", "3", "3", "2:00", "1st and 10", "H1"⟩]).info.quarter =
      some "1" ∧
    (projectEvent
        ⟨"1", "In Progress", some "1", some "10:00", "H1", "A1", some "0",
          some "0"⟩
        [⟨"1", "7", "3", "3", "2:00", "1st and 10", "H1"⟩]).info.timeRemaining =
      some "10:00" ∧
    (some "1" : Option String) ≠ some "3" ∧
    (some "10:00" : Option String) ≠ some "2:00" := by
  decide

/-- Claim C7 (amended): when the snapshot holds an entry for the event's id,
the projected record's home/away score fields are overridden from that entry
and its possession team and down-distance text are taken from it; the quarter
and clock fields are NOT overridden and remain the event's own. When no entry
matches, the event's own fields are used as-is and no possession is set. -/
theorem C7_merge_override (e : EventInfo) (scores_data : List ScoreRecord) :
    (∀ s, scores_data.find? (fun r => r.game_id == e.id) = some s →
      projectEvent e scores_data =
        { info := { extract_game_info e with
            homeTeamScore := s.homeTeamScore
            awayTeamScore := s.awayTeamScore }
          possessionTeam := some s.possession
          downDistance := some s.downDistance } ∧
      (projectEvent e scores_data).info.quarter = e.statusPeriod ∧
      (projectEvent e scores_data).info.timeRemaining =
        e.statusDisplayClock) ∧
    (scores_data.find? (fun r => r.game_id == e.id) = none →
      projectEvent e scores_data =
        { info := extract_game_info e
          possessionTeam := none, downDistance := none }) := by
  constructor
  · intro s hs
    refine ⟨?_, ?_, ?_⟩ <;>
      simp [projectEvent, mergeScores, hs, extract_game_info]
  · intro hs
    simp [projectEvent, mergeScores, hs]

/-- Witness for the amended C7 at a concrete event and snapshot. -/
theorem C7_merge_override_witness :
    projectEvent
        ⟨"1", "In Progress", some "1", some "10:00", "H1", "A1", some "0",
          some "0"⟩
        [⟨"1", "7", "3", "3", "2:00", "1st and 10", "H1"⟩] =
      { info := ⟨"H1", "A1", "7", "3", some "1", some "10:00", "In Progress"⟩
        possessionTeam := some "H1", downDistance := some "1st and 10" } ∧
    projectEvent
        ⟨"2", "Scheduled", none, none, "H2", "A2", some "0", some "0"⟩
        [⟨"1", "7", "3", "3", "2:00", "1st and 10", "H1"⟩] =
      { info := ⟨"H2", "A2", "0", "0", none, none, "Scheduled"⟩
        possessionTeam := none, downDistance := none } := by
  constructor
  · refine Eq.trans
      (((C7_merge_override _ _).1 ⟨"1", "7", "3", "3", "2:00", "1st and 10",
        "H1"⟩ ?_).1) ?_ <;> decide
  · exact Eq.trans ((C7_merge_override
      ⟨"2", "Scheduled", none, none, "H2", "A2", some "0", some "0"⟩
      [⟨"1", "7", "3", "3", "2:00", "1st and 10", "H1"⟩]).2 (by decide))
      (by decide)

/-! ## Lemmas about the status sort -/

/-- The key takes only the values 0, 1, 2. -/
theorem sortKey_le_two (g : EventInfo) : sortKey g ≤ 2 := by
  unfold sortKey
  by_cases h1 : g.statusDescription = "Final" <;>
    by_cases h2 : g.statusDescription = "Scheduled" <;> simp [h1, h2]

/-- Key 0 marks the games that are neither Final nor Scheduled. -/
theorem sortKey_beq_zero (g : EventInfo) :
    (sortKey g == 0) =
      (!(g.statusDescription == "Final") &&
        !(g.statusDescription == "Scheduled")) := by
  by_cases h1 : g.statusDescription = "Final" <;>
    by_cases h2 : g.statusDescription = "Scheduled" <;> simp [sortKey, h1, h2]

/-- Key 1 marks the Scheduled games. -/
theorem sortKey_beq_one (g : EventInfo) :
    (sortKey g == 1) = (g.statusDescription == "Scheduled") := by
  by_cases h1 : g.statusDescription = "Final"
  · by_cases h2 : g.statusDescription = "Scheduled"
    · exact absurd (h1.symm.trans h2) (by decide)
    · simp [sortKey, h1, h2]
  · by_cases h2 : g.statusDescription = "Scheduled" <;> simp [sortKey, h1, h2]

/-- Key 2 marks the Final games. -/
theorem sortKey_beq_two (g : EventInfo) :
    (sortKey g == 2) = (g.statusDescription == "Final") := by
  by_cases h1 : g.statusDescription = "Final"
  · by_cases h2 : g.statusDescription = "Scheduled"
    · exact absurd (h1.symm.trans h2) (by decide)
    · simp [sortKey, h1, h2]
  · by_cases h2 : g.statusDescription = "Scheduled" <;> simp [sortKey, h1, h2]

/-- Splitting a concatenation at a predicate boundary is unique: if the left
parts satisfy `p`, the right parts refute it, and the concatenations agree,
the parts agree. -/
theorem append_eq_append_pred {α : Type} (p : α → Prop) (l₁ : List α) :
    ∀ (l₂ m₁ m₂ : List α), l₁ ++ l₂ = m₁ ++ m₂ →
      (∀ x ∈ l₁, p x) → (∀ x ∈ l₂, ¬ p x) →
      (∀ x ∈ m₁, p x) → (∀ x ∈ m₂, ¬ p x) →
      l₁ = m₁ ∧ l₂ = m₂ := by
  induction l₁ with
  | nil =>
    intro l₂ m₁ m₂ h _ hl₂ hm₁ _
    cases m₁ with
    | nil => exact ⟨rfl, by simpa using h⟩
    | cons y ys =>
      exfalso
      apply hl₂ y ?_ (hm₁ y (List.mem_cons_self _ _))
      have hy : l₂ = y :: (ys ++ m₂) := by simpa using h
      rw [hy]
      exact List.mem_cons_self _ _
  | cons x xs ih =>
    intro l₂ m₁ m₂ h hl₁ hl₂ hm₁ hm₂
    cases m₁ with
    | nil =>
      exfalso
      apply hm₂ x ?_ (hl₁ x (List.mem_cons_self _ _))
      have hx : m₂ = x :: (xs ++ l₂) := by simpa using h.symm
      rw [hx]
      exact List.mem_cons_self _ _
    | cons y ys =>
      simp only [List.cons_append, List.cons.injEq] at h
      obtain ⟨hxy, hrest⟩ := h
      obtain ⟨h1, h2⟩ := ih l₂ ys m₂ hrest
        (fun z hz => hl₁ z (List.mem_cons_of_mem _ hz)) hl₂
        (fun z hz => hm₁ z (List.mem_cons_of_mem _ hz)) hm₂
      exact ⟨by rw [hxy, h1], h2⟩

/-- A stable sort by a key with values in `{0, 1, 2}` is the concatenation of
the three key tiers, each in original order. -/
theorem mergeSort_three_tiers {α : Type} (key : α → Nat)
    (hkey : ∀ a, key a ≤ 2) (l : List α) :
    l.mergeSort (fun a b => key a ≤ key b) =
      l.filter (fun a => key a == 0) ++ l.filter (fun a => key a == 1) ++
        l.filter (fun a => key a == 2) := by
  have htrans : ∀ (a b c : α),
      (fun a b => decide (key a ≤ key b)) a b →
      (fun a b => decide (key a ≤ key b)) b c →
      (fun a b => decide (key a ≤ key b)) a c := by
    intro a b c h1 h2
    simp only [decide_eq_true_eq] at h1 h2 ⊢
    omega
  have htotal : ∀ (a b : α),
      ((fun a b => decide (key a ≤ key b)) a b ||
        (fun a b => decide (key a ≤ key b)) b a) := by
    intro a b
    simp only [Bool.or_eq_true, decide_eq_true_eq]
    omega
  induction l with
  | nil => simp
  | cons a l ih =>
    obtain ⟨l₁, l₂, h₁, h₂, h₃⟩ := List.mergeSort_cons htrans htotal a l
    have hsorted := List.sorted_mergeSort htrans htotal (a :: l)
    rw [h₁] at hsorted
    have hl₂ : ∀ b ∈ l₂, key a ≤ key b := by
      intro b hb
      have hp := (List.pairwise_cons.mp
        (List.pairwise_append.mp hsorted).2.1).1 b hb
      simpa using hp
    have hl₁ : ∀ b ∈ l₁, key b < key a := by
      intro b hb
      have hp := h₃ b hb
      simp only [Bool.not_eq_true', decide_eq_false_iff_not] at hp
      omega
    have hsplit : l₁ ++ l₂ =
        l.filter (fun a => key a == 0) ++ l.filter (fun a => key a == 1) ++
          l.filter (fun a => key a == 2) := by
      rw [← h₂, ih]
    have hcase : key a = 0 ∨ key a = 1 ∨ key a = 2 := by
      have := hkey a
      omega
    rcases hcase with hk | hk | hk
    · have hnil : l₁ = [] := by
        rw [List.eq_nil_iff_forall_not_mem]
        intro b hb
        have := hl₁ b hb
        omega
      rw [hnil, List.nil_append] at hsplit
      rw [h₁, hnil, List.nil_append, hsplit]
      simp [List.filter_cons, hk, List.append_assoc]
    · rw [List.append_assoc] at hsplit
      obtain ⟨e1, e2⟩ := append_eq_append_pred (fun x => key x < 1) l₁ l₂
        (l.filter (fun a => key a == 0))
        (l.filter (fun a => key a == 1) ++ l.filter (fun a => key a == 2))
        hsplit
        (fun b hb => by have := hl₁ b hb; omega)
        (fun b hb => by have := hl₂ b hb; omega)
        (fun b hb => by
          have := (List.mem_filter.mp hb).2
          simp only [beq_iff_eq] at this
          omega)
        (fun b hb => by
          rcases List.mem_append.mp hb with hb | hb <;>
          · have := (List.mem_filter.mp hb).2
            simp only [beq_iff_eq] at this
            omega)
      rw [h₁, e1, e2]
      simp [List.filter_cons, hk, List.append_assoc]
    · obtain ⟨e1, e2⟩ := append_eq_append_pred (fun x => key x < 2) l₁ l₂
        (l.filter (fun a => key a == 0) ++ l.filter (fun a => key a == 1))
        (l.filter (fun a => key a == 2))
        hsplit
        (fun b hb => by have := hl₁ b hb; omega)
        (fun b hb => by have := hl₂ b hb; omega)
        (fun b hb => by
          rcases List.mem_append.mp hb with hb | hb <;>
          · have := (List.mem_filter.mp hb).2
            simp only [beq_iff_eq] at this
            omega)
        (fun b hb => by
          have := (List.mem_filter.mp hb).2
          simp only [beq_iff_eq] at this
          omega)
      rw [h₁, e1, e2]
      simp [List.filter_cons, hk, List.append_assoc]

/-- Claim C8: the sort places the non-Final, non-Scheduled games (In Progress
and any other live status) first, the Scheduled games second and the Final
games last, and it is stable: within each tier the upstream order of
`selected_week_games` is preserved. (The three filters keep the original
relative order of each tier.) -/
theorem C8_sort_tiering (games : List EventInfo) :
    sortGames games =
      games.filter (fun g => !(g.statusDescription == "Final") &&
        !(g.statusDescription == "Scheduled")) ++
      games.filter (fun g => g.statusDescription == "Scheduled") ++
      games.filter (fun g => g.statusDescription == "Final") := by
  unfold sortGames
  rw [mergeSort_three_tiers sortKey sortKey_le_two games,
    funext sortKey_beq_zero, funext sortKey_beq_one, funext sortKey_beq_two]

end NFL
